import Mathlib

/-!
Verification of `sez_to_ecef.py`: a one-shot converter from a topocentric
SEZ (South-East-Zenith) offset vector, relative to an observer given in
geodetic coordinates, to a geocentric ECEF (Earth-Centered Earth-Fixed)
position.

The Python source is embedded shallowly over the real numbers:
pure functions (`calc_denom`, `llh_to_ecef`, `sez_to_ecef`) become Lean
functions on `ℝ`; the script body becomes `programOutput` (the numeric
pipeline for six parsed arguments) and `run` (the full behaviour including
argument-count checking and float-parse failures).  A command-line argument
is modelled as `Option ℝ`: `some v` when Python's `float()` parses it to the
value `v`, `none` when `float()` raises `ValueError`.
-/

namespace SezToEcef

noncomputable section

open Real

/-- Equatorial radius in kilometers (`R_E_KM = 6378.137` in the source). -/
def R_E_KM : ℝ := 6378.137

/-- Earth's eccentricity (`E_E = 0.081819221456` in the source). -/
def E_E : ℝ := 0.081819221456

/-- `calc_denom(ecc, lat_rad)`: the denominator in the ECEF conversion
equation, `sqrt(1.0 - ecc**2 * sin(lat_rad)**2)`. -/
def calc_denom (ecc lat_rad : ℝ) : ℝ :=
  Real.sqrt (1.0 - ecc ^ 2 * Real.sin lat_rad ^ 2)

/-- `llh_to_ecef(o_lat_rad, o_lon_rad, o_hae_km)`: convert the observer's
latitude, longitude (radians) and height (km) to ECEF coordinates. -/
def llh_to_ecef (o_lat_rad o_lon_rad o_hae_km : ℝ) : ℝ × ℝ × ℝ :=
  let denom := calc_denom E_E o_lat_rad
  let N := R_E_KM / denom
  let x := (N + o_hae_km) * Real.cos o_lat_rad * Real.cos o_lon_rad
  let y := (N + o_hae_km) * Real.cos o_lat_rad * Real.sin o_lon_rad
  let z := (N * (1 - E_E ^ 2) + o_hae_km) * Real.sin o_lat_rad
  (x, y, z)

/-- `sez_to_ecef(o_lat_rad, o_lon_rad, s_km, e_km, z_km)`: rotate a SEZ
offset vector into the ECEF frame (pure rotation, no translation). -/
def sez_to_ecef (o_lat_rad o_lon_rad s_km e_km z_km : ℝ) : ℝ × ℝ × ℝ :=
  let cos_lat := Real.cos o_lat_rad
  let sin_lat := Real.sin o_lat_rad
  let cos_lon := Real.cos o_lon_rad
  let sin_lon := Real.sin o_lon_rad
  let ecef_x := s_km * sin_lat * cos_lon + e_km * (-sin_lon) + z_km * cos_lat * cos_lon
  let ecef_y := s_km * sin_lat * sin_lon + e_km * cos_lon + z_km * cos_lat * sin_lon
  let ecef_z := s_km * -cos_lat + z_km * sin_lat
  (ecef_x, ecef_y, ecef_z)

/-- Python's `math.radians`: degrees to radians. -/
def radians (deg : ℝ) : ℝ := deg * Real.pi / 180

/-- The numeric pipeline of the script body for six successfully parsed
arguments: convert lat/lon to radians, convert the observer's LLH to ECEF,
rotate the SEZ offset, and add component-wise.  The resulting triple is
printed one component per line, in order `(x, y, z)`. -/
def programOutput (o_lat_deg o_lon_deg o_hae_km s_km e_km z_km : ℝ) : ℝ × ℝ × ℝ :=
  let o_lat_rad := radians o_lat_deg
  let o_lon_rad := radians o_lon_deg
  let obs := llh_to_ecef o_lat_rad o_lon_rad o_hae_km
  let off := sez_to_ecef o_lat_rad o_lon_rad s_km e_km z_km
  (obs.1 + off.1, obs.2.1 + off.2.1, obs.2.2 + off.2.2)

/-- Observable behaviour of one program run:
`usage` — the usage message is printed and the program exits with no
computation; `parseError` — an uncaught `ValueError` from `float()`
terminates the program with no numeric output; `output x y z` — the three
values are printed to standard output, one per line, in that order. -/
inductive ProgResult where
  | usage : ProgResult
  | parseError : ProgResult
  | output : ℝ → ℝ → ℝ → ProgResult
deriving DecidableEq

/-- The whole program, on the list of command-line arguments (excluding the
script name; the source tests `len(sys.argv) == 7`, i.e. six user
arguments).  Each argument is `some v` when `float()` parses it to `v`
and `none` when `float()` raises. -/
def run (args : List (Option ℝ)) : ProgResult :=
  if args.length ≠ 6 then ProgResult.usage
  else
    match args with
    | [some a, some b, some c, some d, some e, some f] =>
        let o := programOutput a b c d e f
        ProgResult.output o.1 o.2.1 o.2.2
    | _ => ProgResult.parseError

/-- The numeric value printed on the third output line, when any. -/
def thirdLine : ProgResult → Option ℝ
  | ProgResult.output _ _ z => some z
  | _ => none

end

/-- C2: `llh_to_ecef` returns exactly
`x = (N + h)·cos φ·cos λ`, `y = (N + h)·cos φ·sin λ`,
`z = (N·(1 − e²) + h)·sin φ` with `N = R_E_KM / calc_denom E_E φ`. -/
theorem llh_to_ecef_formula (φ lam h : ℝ) :
    llh_to_ecef φ lam h =
      ((R_E_KM / calc_denom E_E φ + h) * Real.cos φ * Real.cos lam,
       (R_E_KM / calc_denom E_E φ + h) * Real.cos φ * Real.sin lam,
       (R_E_KM / calc_denom E_E φ * (1 - E_E ^ 2) + h) * Real.sin φ) := rfl

/-- C3: `sez_to_ecef` returns exactly
`ecef_x = s·sin φ·cos λ − e·sin λ + z·cos φ·cos λ`,
`ecef_y = s·sin φ·sin λ + e·cos λ + z·cos φ·sin λ`,
`ecef_z = −s·cos φ + z·sin φ` — a pure rotation with no translation term. -/
theorem sez_to_ecef_formula (φ lam s e z : ℝ) :
    sez_to_ecef φ lam s e z =
      (s * Real.sin φ * Real.cos lam - e * Real.sin lam
         + z * Real.cos φ * Real.cos lam,
       s * Real.sin φ * Real.sin lam + e * Real.cos lam
         + z * Real.cos φ * Real.sin lam,
       -s * Real.cos φ + z * Real.sin φ) := by
  simp only [sez_to_ecef, Prod.mk.injEq]
  refine ⟨by ring_nf, by ring_nf, by ring_nf⟩

/-- C4: for eccentricity `e` and latitude `φ` with `e²·sin²φ < 1`,
`calc_denom` returns `sqrt(1 − e²·sin²φ)`, a positive real in `(0, 1]`. -/
theorem calc_denom_spec (e φ : ℝ) (h : e ^ 2 * Real.sin φ ^ 2 < 1) :
    calc_denom e φ = Real.sqrt (1 - e ^ 2 * Real.sin φ ^ 2) ∧
    0 < calc_denom e φ ∧ calc_denom e φ ≤ 1 := by
  have h1 : (1.0 : ℝ) - e ^ 2 * Real.sin φ ^ 2 = 1 - e ^ 2 * Real.sin φ ^ 2 := by
    norm_num
  refine ⟨by rw [calc_denom, h1], ?_, ?_⟩
  · rw [calc_denom, h1]
    exact Real.sqrt_pos.mpr (by linarith)
  · rw [calc_denom, h1]
    exact Real.sqrt_le_one.mpr (by nlinarith [sq_nonneg (e * Real.sin φ)])

/-- Witness for C4 at `e = 0`, `φ = 0`. -/
theorem calc_denom_spec_witness :
    (0 : ℝ) ^ 2 * Real.sin 0 ^ 2 < 1 ∧
    (calc_denom 0 0 = Real.sqrt (1 - (0 : ℝ) ^ 2 * Real.sin 0 ^ 2) ∧
     0 < calc_denom 0 0 ∧ calc_denom 0 0 ≤ 1) :=
  ⟨by norm_num, calc_denom_spec 0 0 (by norm_num)⟩

/-- C10: with the program's eccentricity constant, `calc_denom` is total:
for every latitude, `1 − E_E²·sin²lat ≥ 1 − E_E² > 0`, so the square-root
argument is strictly positive, `calc_denom` is positive and never zero
(hence `R_E_KM / denom` in `llh_to_ecef` never divides by zero). -/
theorem calc_denom_total (lat : ℝ) :
    1 - E_E ^ 2 ≤ 1 - E_E ^ 2 * Real.sin lat ^ 2 ∧
    0 < 1 - E_E ^ 2 ∧
    0 < calc_denom E_E lat ∧ calc_denom E_E lat ≠ 0 := by
  have hs : Real.sin lat ^ 2 ≤ 1 := Real.sin_sq_le_one lat
  have hs0 : (0 : ℝ) ≤ Real.sin lat ^ 2 := sq_nonneg _
  have hE : (0 : ℝ) < 1 - E_E ^ 2 := by rw [E_E]; norm_num
  have hE0 : (0 : ℝ) ≤ E_E ^ 2 := sq_nonneg _
  have hmono : E_E ^ 2 * Real.sin lat ^ 2 ≤ E_E ^ 2 := by nlinarith
  have hpos : 0 < calc_denom E_E lat := by
    rw [calc_denom]
    apply Real.sqrt_pos.mpr
    norm_num
    linarith
  exact ⟨by linarith, hE, hpos, ne_of_gt hpos⟩

/-- C7: the SEZ→ECEF rotation preserves the Euclidean norm: for every
observer latitude/longitude and every SEZ vector `(s, e, z)`, the norm of
the rotated vector equals the norm of `(s, e, z)` (exactly, over real
semantics). -/
theorem sez_to_ecef_norm (φ lam s e z : ℝ) :
    Real.sqrt ((sez_to_ecef φ lam s e z).1 ^ 2 +
        (sez_to_ecef φ lam s e z).2.1 ^ 2 +
        (sez_to_ecef φ lam s e z).2.2 ^ 2) =
      Real.sqrt (s ^ 2 + e ^ 2 + z ^ 2) := by
  have hφ := Real.sin_sq_add_cos_sq φ
  have hlam := Real.sin_sq_add_cos_sq lam
  have key : (sez_to_ecef φ lam s e z).1 ^ 2 +
      (sez_to_ecef φ lam s e z).2.1 ^ 2 +
      (sez_to_ecef φ lam s e z).2.2 ^ 2 = s ^ 2 + e ^ 2 + z ^ 2 := by
    simp only [sez_to_ecef]
    linear_combination ((s * Real.sin φ + z * Real.cos φ) ^ 2 + e ^ 2) * hlam +
      (s ^ 2 + z ^ 2) * hφ
  rw [key]

/-- C1: for every run with exactly six numeric arguments, the program
converts lat/lon to radians, computes the observer ECEF via `llh_to_ecef`,
the rotated offset via `sez_to_ecef`, sums component-wise, and outputs
exactly the three resulting scalars in order x, y, z. -/
theorem run_six_numeric (a b c d e f : ℝ) :
    run [some a, some b, some c, some d, some e, some f] =
      ProgResult.output
        ((llh_to_ecef (radians a) (radians b) c).1 +
          (sez_to_ecef (radians a) (radians b) d e f).1)
        ((llh_to_ecef (radians a) (radians b) c).2.1 +
          (sez_to_ecef (radians a) (radians b) d e f).2.1)
        ((llh_to_ecef (radians a) (radians b) c).2.2 +
          (sez_to_ecef (radians a) (radians b) d e f).2.2) := by
  simp [run, programOutput]

/-- C5: for every invocation whose argument count is not exactly six, the
program prints the usage message and terminates with no computation and no
numeric output. -/
theorem run_usage (args : List (Option ℝ)) (h : args.length ≠ 6) :
    run args = ProgResult.usage := by
  simp [run, h]

/-- Witness for C5 at the empty argument list. -/
theorem run_usage_witness : run [] = ProgResult.usage :=
  run_usage [] (by simp)

/-- C6: for every six-argument invocation, if some argument fails to parse
as a float the program terminates with an uncaught conversion failure and
no numeric output; otherwise (all six parse) it produces numeric output —
non-numeric input is the only error for a six-argument invocation. -/
theorem run_parse_failure (args : List (Option ℝ)) (h6 : args.length = 6) :
    (none ∈ args → run args = ProgResult.parseError) ∧
    (none ∉ args → ∃ x y z, run args = ProgResult.output x y z) := by
  rcases args with _ | ⟨a, _ | ⟨b, _ | ⟨c, _ | ⟨d, _ | ⟨e, _ | ⟨f, _ | ⟨g, t⟩⟩⟩⟩⟩⟩⟩ <;>
    simp only [List.length_cons, List.length_nil] at h6 <;> try omega
  rcases a with _ | a <;> rcases b with _ | b <;> rcases c with _ | c <;>
    rcases d with _ | d <;> rcases e with _ | e <;> rcases f with _ | f <;>
    refine ⟨fun hmem => ?_, fun hmem => ?_⟩ <;>
    first
      | rfl
      | exact ⟨_, _, _, rfl⟩
      | simp_all

/-- Witness for C6: a six-argument invocation with one unparseable
argument yields a parse failure. -/
theorem run_parse_failure_witness :
    run [some 0, none, some 0, some 0, some 0, some 0] =
      ProgResult.parseError :=
  (run_parse_failure [some 0, none, some 0, some 0, some 0, some 0]
    (by simp)).1 (by simp)

/-- C8: for observer latitude 0°, longitude 0°, height 0 km and
SEZ = (0, 0, 0), the program outputs exactly (6378.137, 0, 0) km — the
equatorial radius on the x-axis. -/
theorem run_known_value :
    run [some 0, some 0, some 0, some 0, some 0, some 0] =
      ProgResult.output 6378.137 0 0 := by
  have hrad : radians 0 = 0 := by simp [radians]
  simp only [run, programOutput, llh_to_ecef, sez_to_ecef, calc_denom, hrad,
    Real.sin_zero, Real.cos_zero]
  norm_num [R_E_KM, Real.sqrt_one]

/-- C9: the third output line (the ECEF z coordinate) does not depend on
the observer longitude argument: two runs differing only in `o_lon_deg`
print the same third line. -/
theorem third_line_lon_independent (lat lon lon' h s e z : ℝ) :
    thirdLine (run [some lat, some lon, some h, some s, some e, some z]) =
      thirdLine (run [some lat, some lon', some h, some s, some e, some z]) := rfl

end SezToEcef
